import Mathlib

/-!
Verification development for the phoenix backend (python sources:
`agents.py`, `main.py`).  The definitions below are a shallow embedding of
the fingerprinting / session-validation logic of `agents.py` and of the
response-normalization logic of `main.py`; the theorems at the end settle
the specification claims against them.

Modelling conventions:
* Python dicts are association lists with unique keys; lookups and
  emptiness tests mirror dict semantics.
* Machine-level hashing (`hashlib.md5`) is embedded as a full executable
  MD5 over `Nat` bytes with explicit `% 2^32` arithmetic.
* Fallible operations (redis calls, `AttributeError` on duck-typed access)
  are embedded with `Except String`.
-/

/-! ### String literal constants (shared by definitions and theorems) -/

def emptyStr : String := ""

def emptyLogsStr : String := "empty_logs"

def hashPrefixStr : String := "hash:"

def checkpointPrefixStr : String := "checkpoint:"

def connErrStr : String := "ConnectionError"

def attrErrStr : String := "AttributeError"

def msgKey : String := "message"

def typeKey : String := "type"

def dataKey : String := "data"

def phaseKey : String := "phase"

def focusHabitKey : String := "focus_habit"

def actionKey : String := "action"

def textKey : String := "text"

def textVal : String := "text"

def errorVal : String := "error"

def emptyRespStr : String := "Empty response"

def fenceJsonStr : String := "```json"

def fenceStr : String := "```"

def commaSepStr : String := ", "

def colonSepStr : String := ": "

def spaceStr : String := " "

def lbraceStr : String := "\x7b"

def rbraceStr : String := "\x7d"

def quoteStr : String := "\""

def trueStr : String := "true"

def falseStr : String := "false"

def nullStr : String := "null"

def followupMsg : String := "Analyze the user's mood and sleep logs and give me a summary."

/-! ### Python values appearing in telemetry records

`main.py` forwards `request.user_logs : Dict[str, Any]` to
`validate_session_and_get_config`; per the spec (§3) the values are
numbers, strings and booleans (plus `None`). -/

inductive PyVal where
  | int (n : Int)
  | str (s : String)
  | bool (b : Bool)
  | none
deriving DecidableEq

/-- TelemetryRecord: a Python dict, modelled as an association list with
unique keys (first-match lookup). -/
def Telemetry : Type := List (String × PyVal)

instance : DecidableEq Telemetry := by unfold Telemetry; infer_instance

/-- Python dict lookup (`data[k]` / `k in data`). -/
def lookupT : Telemetry → String → Option PyVal
  | [], _ => Option.none
  | (k, v) :: rest, key => if k = key then Option.some v else lookupT rest key

/-! ### json.dumps with sort_keys=True (the serialization inside get_log_hash) -/

/-- Hexadecimal digit character, lowercase (as Python produces). -/
def hexDig (n : Nat) : Char :=
  if n < 10 then Char.ofNat (48 + n) else Char.ofNat (87 + n % 16)

/-- Four hex digits for a 16-bit value (used by the \uXXXX escapes). -/
def hex4 (n : Nat) : String :=
  String.mk [hexDig (n / 4096 % 16), hexDig (n / 256 % 16), hexDig (n / 16 % 16), hexDig (n % 16)]

def uEscStr : String := "\\u"

def escQuoteStr : String := "\\\""

def escBackslashStr : String := "\\\\"

def escNlStr : String := "\\n"

def escCrStr : String := "\\r"

def escTabStr : String := "\\t"

def escBsStr : String := "\\b"

def escFfStr : String := "\\f"

/-- Escaping of one character under json.dumps' default `ensure_ascii=True`. -/
def jsonEscapeChar (c : Char) : String :=
  if c = '"' then escQuoteStr
  else if c = '\\' then escBackslashStr
  else if c = '\n' then escNlStr
  else if c = '\r' then escCrStr
  else if c = '\t' then escTabStr
  else if c = '\x08' then escBsStr
  else if c = '\x0c' then escFfStr
  else if c.toNat < 32 then uEscStr ++ hex4 c.toNat
  else if c.toNat < 127 then String.mk [c]
  else if c.toNat < 65536 then uEscStr ++ hex4 c.toNat
  else
    let n := c.toNat - 65536
    uEscStr ++ hex4 (55296 + n / 1024) ++ uEscStr ++ hex4 (56320 + n % 1024)

/-- json.dumps rendering of a Python string. -/
def jsonQuote (s : String) : String :=
  quoteStr ++ String.join (s.data.map jsonEscapeChar) ++ quoteStr

/-- json.dumps rendering of one telemetry value (Python bools render as
`true`/`false`, `None` as `null`, ints in decimal). -/
def dumpVal : PyVal → String
  | .int n => toString n
  | .str s => jsonQuote s
  | .bool b => if b then trueStr else falseStr
  | .none => nullStr

/-- Insertion step for sorting dict entries by key (sort_keys=True). -/
def insertByKey (p : String × PyVal) : List (String × PyVal) → List (String × PyVal)
  | [] => [p]
  | q :: rest => if q.1 < p.1 then q :: insertByKey p rest else p :: q :: rest

/-- Sort dict entries by key in ascending order (Python's `sort_keys=True`;
keys here are unique so stability is irrelevant). -/
def sortByKey (l : List (String × PyVal)) : List (String × PyVal) :=
  l.foldr insertByKey []

/-- json.dumps of a dict with default separators and `sort_keys=True`:
`{"k1": v1, "k2": v2}` with keys sorted. -/
def dumpsSorted (kvs : List (String × PyVal)) : String :=
  lbraceStr
    ++ String.intercalate commaSepStr
         ((sortByKey kvs).map (fun p => jsonQuote p.1 ++ colonSepStr ++ dumpVal p.2))
    ++ rbraceStr

/-! ### MD5 (hashlib.md5(...).hexdigest()), executable over Nat bytes -/

/-- Modulus for 32-bit arithmetic. -/
def M32 : Nat := 4294967296

/-- Bitwise complement within 32 bits (inputs are kept below 2^32). -/
def not32 (a : Nat) : Nat := 4294967295 - a

/-- Left rotation of a 32-bit value. -/
def rotl32 (x s : Nat) : Nat := (x * 2 ^ s % M32 + x / 2 ^ (32 - s)) % M32

def fF (b c d : Nat) : Nat := Nat.lor (Nat.land b c) (Nat.land (not32 b) d)

def fG (b c d : Nat) : Nat := Nat.lor (Nat.land d b) (Nat.land (not32 d) c)

def fH (b c d : Nat) : Nat := Nat.xor (Nat.xor b c) d

def fI (b c d : Nat) : Nat := Nat.xor c (Nat.lor b (not32 d))

/-- MD5 sine-derived round constants. -/
def kTable : List Nat :=
  [0xd76aa478, 0xe8c7b756, 0x242070db, 0xc1bdceee,
   0xf57c0faf, 0x4787c62a, 0xa8304613, 0xfd469501,
   0x698098d8, 0x8b44f7af, 0xffff5bb1, 0x895cd7be,
   0x6b901122, 0xfd987193, 0xa679438e, 0x49b40821,
   0xf61e2562, 0xc040b340, 0x265e5a51, 0xe9b6c7aa,
   0xd62f105d, 0x02441453, 0xd8a1e681, 0xe7d3fbc8,
   0x21e1cde6, 0xc33707d6, 0xf4d50d87, 0x455a14ed,
   0xa9e3e905, 0xfcefa3f8, 0x676f02d9, 0x8d2a4c8a,
   0xfffa3942, 0x8771f681, 0x6d9d6122, 0xfde5380c,
   0xa4beea44, 0x4bdecfa9, 0xf6bb4b60, 0xbebfbc70,
   0x289b7ec6, 0xeaa127fa, 0xd4ef3085, 0x04881d05,
   0xd9d4d039, 0xe6db99e5, 0x1fa27cf8, 0xc4ac5665,
   0xf4292244, 0x432aff97, 0xab9423a7, 0xfc93a039,
   0x655b59c3, 0x8f0ccc92, 0xffeff47d, 0x85845dd1,
   0x6fa87e4f, 0xfe2ce6e0, 0xa3014314, 0x4e0811a1,
   0xf7537e82, 0xbd3af235, 0x2ad7d2bb, 0xeb86d391]

/-- MD5 per-round left-rotation amounts. -/
def sTable : List Nat :=
  [7, 12, 17, 22, 7, 12, 17, 22, 7, 12, 17, 22, 7, 12, 17, 22,
   5, 9, 14, 20, 5, 9, 14, 20, 5, 9, 14, 20, 5, 9, 14, 20,
   4, 11, 16, 23, 4, 11, 16, 23, 4, 11, 16, 23, 4, 11, 16, 23,
   6, 10, 15, 21, 6, 10, 15, 21, 6, 10, 15, 21, 6, 10, 15, 21]

/-- One 64-byte block of the MD5 compression function. -/
def md5ProcessBlock (st : Nat × Nat × Nat × Nat) (block : List Nat) : Nat × Nat × Nat × Nat :=
  let w : Nat → Nat := fun j =>
    block.getD (4 * j) 0 + 256 * block.getD (4 * j + 1) 0
      + 65536 * block.getD (4 * j + 2) 0 + 16777216 * block.getD (4 * j + 3) 0
  let r := (List.range 64).foldl
    (fun (acc : Nat × Nat × Nat × Nat) i =>
      let a := acc.1
      let b := acc.2.1
      let c := acc.2.2.1
      let d := acc.2.2.2
      let fg : Nat × Nat :=
        if i < 16 then (fF b c d, i)
        else if i < 32 then (fG b c d, (5 * i + 1) % 16)
        else if i < 48 then (fH b c d, (3 * i + 5) % 16)
        else (fI b c d, 7 * i % 16)
      let fv := (fg.1 + a + kTable.getD i 0 + w fg.2) % M32
      (d, (b + rotl32 fv (sTable.getD i 0)) % M32, b, c))
    st
  ((st.1 + r.1) % M32, (st.2.1 + r.2.1) % M32,
   (st.2.2.1 + r.2.2.1) % M32, (st.2.2.2 + r.2.2.2) % M32)

/-- Little-endian 8-byte rendering of the bit length. -/
def leBytes8 (n : Nat) : List Nat :=
  [n % 256, n / 256 % 256, n / 65536 % 256, n / 16777216 % 256,
   n / 4294967296 % 256, n / 1099511627776 % 256,
   n / 281474976710656 % 256, n / 72057594037927936 % 256]

/-- MD5 padding: 0x80, zeros to 56 mod 64, then the 64-bit bit length. -/
def md5Pad (msg : List Nat) : List Nat :=
  let l := msg.length
  msg ++ [128] ++ List.replicate ((120 - (l + 1) % 64) % 64) 0 ++ leBytes8 (l * 8)

/-- Split a byte list into 64-byte chunks (fuel-driven; fuel is an upper
bound on the number of chunks). -/
def chunks64 : Nat → List Nat → List (List Nat)
  | 0, _ => []
  | _, [] => []
  | fuel + 1, l => l.take 64 :: chunks64 fuel (l.drop 64)

/-- Full MD5 digest state over a message given as bytes. -/
def md5Digest (msg : List Nat) : Nat × Nat × Nat × Nat :=
  (chunks64 (md5Pad msg).length (md5Pad msg)).foldl md5ProcessBlock
    (0x67452301, 0xefcdab89, 0x98badcfe, 0x10325476)

/-- Two lowercase hex digits of a byte. -/
def byteHex (n : Nat) : String := String.mk [hexDig (n / 16 % 16), hexDig (n % 16)]

/-- Little-endian hex rendering of one 32-bit word of the digest. -/
def word32HexLE (x : Nat) : String :=
  byteHex (x % 256) ++ byteHex (x / 256 % 256) ++ byteHex (x / 65536 % 256)
    ++ byteHex (x / 16777216 % 256)

/-- hashlib.md5(bytes).hexdigest(). -/
def md5Hex (msg : List Nat) : String :=
  let d := md5Digest msg
  word32HexLE d.1 ++ word32HexLE d.2.1 ++ word32HexLE d.2.2.1 ++ word32HexLE d.2.2.2

/-- UTF-8 bytes of one character (str.encode("utf-8")). -/
def utf8Char (c : Char) : List Nat :=
  let n := c.toNat
  if n < 128 then [n]
  else if n < 2048 then [192 + n / 64, 128 + n % 64]
  else if n < 65536 then [224 + n / 4096, 128 + n / 64 % 64, 128 + n % 64]
  else [240 + n / 262144, 128 + n / 4096 % 64, 128 + n / 64 % 64, 128 + n % 64]

/-- UTF-8 encoding of a string as a byte list. -/
def strBytes (s : String) : List Nat := (s.data.map utf8Char).flatten

/-! ### get_log_hash and validate_session_and_get_config (agents.py) -/

/-- Allow-listed lifestyle keys (`lifestyle_keys` in agents.py). -/
def lifestyle_keys : List String :=
  [r"steps", r"sleep", r"mood", r"water", r"period_day", r"weight"]

/-- agents.py `get_log_hash(data)`: sentinel "empty_logs" for an empty
dict, otherwise the md5 hexdigest of the sort-keyed json.dumps of the
projection of `data` onto the allow-listed lifestyle keys. -/
def get_log_hash (data : Telemetry) : String :=
  if data.isEmpty then emptyLogsStr
  else
    md5Hex (strBytes (dumpsSorted
      (lifestyle_keys.filterMap (fun k => (lookupT data k).map (fun v => (k, v))))))

/-- Session store: the redis key-value state plus an availability flag;
when `available` is false every redis command raises (modelled as
`Except.error`), which is how an unreachable redis server behaves. -/
structure RedisStore where
  data : List (String × String)
  available : Bool
deriving DecidableEq

/-- Association-list lookup for the store (redis GET semantics on the
key space; missing key gives none). -/
def lookupKey : List (String × String) → String → Option String
  | [], _ => Option.none
  | (k, v) :: rest, key => if k = key then Option.some v else lookupKey rest key

/-- Remove a key (redis DEL). -/
def eraseKey : List (String × String) → String → List (String × String)
  | [], _ => []
  | (k, v) :: rest, key => if k = key then eraseKey rest key else (k, v) :: eraseKey rest key

/-- Write a key (redis SET overwrites). -/
def setKey (d : List (String × String)) (key v : String) : List (String × String) :=
  (key, v) :: eraseKey d key

/-- redis GET: errors when the server is unavailable, otherwise returns
the stored value or none. -/
def redisGet (st : RedisStore) (k : String) : Except String (Option String) :=
  if st.available then Except.ok (lookupKey st.data k) else Except.error connErrStr

/-- redis SET. -/
def redisSet (st : RedisStore) (k v : String) : Except String RedisStore :=
  if st.available then Except.ok { st with data := setKey st.data k v }
  else Except.error connErrStr

/-- redis DEL. -/
def redisDelete (st : RedisStore) (k : String) : Except String RedisStore :=
  if st.available then Except.ok { st with data := eraseKey st.data k }
  else Except.error connErrStr

def hashKey (id : String) : String := hashPrefixStr ++ id

def checkpointKey (id : String) : String := checkpointPrefixStr ++ id

/-- agents.py `validate_session_and_get_config(thread_id, current_lifestyle_data)`.

Control flow mirrors the source exactly:
`if stored_hash:` is Python truthiness (`None` and the empty string are
falsy), the mismatch branch deletes `checkpoint:<thread_id>` and returns
immediately (the `set` after the `return` on the mismatch branch is dead
code and hence absent here), and the match/first-use paths re-store the
current hash.  Redis exceptions propagate (there is no try/except in the
source function). -/
def validate_session_and_get_config (store : RedisStore) (thread_id : String)
    (current_lifestyle_data : Telemetry) : Except String (String × RedisStore) :=
  let hash_key := hashKey thread_id
  let current_hash := get_log_hash current_lifestyle_data
  match redisGet store hash_key with
  | .error e => .error e
  | .ok stored_hash =>
    match stored_hash with
    | Option.some s =>
      if s = emptyStr then
        -- falsy stored value: falls through to the first-use path
        match redisSet store hash_key current_hash with
        | .error e => .error e
        | .ok st => .ok (thread_id, st)
      else if s ≠ current_hash then
        match redisDelete store (checkpointKey thread_id) with
        | .error e => .error e
        | .ok st => .ok (thread_id, st)
      else
        match redisSet store hash_key current_hash with
        | .error e => .error e
        | .ok st => .ok (thread_id, st)
    | Option.none =>
      match redisSet store hash_key current_hash with
      | .error e => .error e
      | .ok st => .ok (thread_id, st)

/-! ### JSON values and a json.loads model (used by main.py's normalizer) -/

/-- Parsed JSON value.  `fnum` keeps the lexeme of a float / Infinity /
NaN literal (json.loads would return a Python float; no numeric use is
made of such values downstream, so the lexeme suffices). -/
inductive JValue where
  | null
  | bool (b : Bool)
  | num (n : Int)
  | fnum (lexeme : String)
  | str (s : String)
  | arr (elems : List JValue)
  | obj (members : List (String × JValue))
deriving Repr

/-- Python dict lookup on a parsed JSON object.  json.loads builds a dict,
so a duplicated key keeps its last value: fold from the left, later
bindings overriding earlier ones. -/
def jGet (kvs : List (String × JValue)) (key : String) : Option JValue :=
  kvs.foldl (fun acc p => if p.1 = key then Option.some p.2 else acc) Option.none

/-- dict.get(key, default): the stored value (even if null) when the key
is present, else the default. -/
def jGetD (kvs : List (String × JValue)) (key : String) (dflt : JValue) : JValue :=
  (jGet kvs key).getD dflt

/-- Whitespace skipped by the json module (space, tab, newline, carriage
return only). -/
def isJsonWs (c : Char) : Bool := c = ' ' || c = '\t' || c = '\n' || c = '\r'

def skipWs (cs : List Char) : List Char := cs.dropWhile isJsonWs

/-- Hex digit value of a character, if it is one. -/
def hexVal (c : Char) : Option Nat :=
  if '0' ≤ c ∧ c ≤ '9' then Option.some (c.toNat - 48)
  else if 'a' ≤ c ∧ c ≤ 'f' then Option.some (c.toNat - 87)
  else if 'A' ≤ c ∧ c ≤ 'F' then Option.some (c.toNat - 55)
  else Option.none

/-- Body of a JSON string literal after the opening quote.  Handles the
standard escapes; a \uXXXX escape becomes the character with that code
(surrogate pairs are not recombined — no claim exercises them).  Raw
control characters are rejected as json.loads does in strict mode. -/
def parseStringBody : List Char → List Char → Option (String × List Char)
  | [], _ => Option.none
  | '"' :: rest, acc => Option.some (String.mk acc.reverse, rest)
  | '\\' :: 'u' :: h1 :: h2 :: h3 :: h4 :: rest, acc =>
    match hexVal h1, hexVal h2, hexVal h3, hexVal h4 with
    | Option.some a, Option.some b, Option.some c, Option.some d =>
      parseStringBody rest (Char.ofNat (4096 * a + 256 * b + 16 * c + d) :: acc)
    | _, _, _, _ => Option.none
  | '\\' :: e :: rest, acc =>
    if e = '"' then parseStringBody rest ('"' :: acc)
    else if e = '\\' then parseStringBody rest ('\\' :: acc)
    else if e = '/' then parseStringBody rest ('/' :: acc)
    else if e = 'b' then parseStringBody rest ('\x08' :: acc)
    else if e = 'f' then parseStringBody rest ('\x0c' :: acc)
    else if e = 'n' then parseStringBody rest ('\n' :: acc)
    else if e = 'r' then parseStringBody rest ('\r' :: acc)
    else if e = 't' then parseStringBody rest ('\t' :: acc)
    else Option.none
  | c :: rest, acc =>
    if c.toNat < 32 then Option.none else parseStringBody rest (c :: acc)

def isDigitCh (c : Char) : Bool := '0' ≤ c && c ≤ '9'

/-- Decimal value of a digit list. -/
def digitsToNat (ds : List Char) : Nat :=
  ds.foldl (fun acc c => 10 * acc + (c.toNat - 48)) 0

def infinityChars : List Char := ['I', 'n', 'f', 'i', 'n', 'i', 't', 'y']

def infinityStr : String := "Infinity"

def negInfinityStr : String := "-Infinity"

def nanStr : String := "NaN"

/-- JSON number (or Infinity, -Infinity, NaN, which json.loads accepts).
Mirrors the json module's NUMBER_RE: `-?(0|[1-9]\d*)(\.\d+)?([eE][+-]?\d+)?`;
the longest such prefix is consumed and anything after it is left for the
caller (so e.g. a leading-zero number fails later, exactly as in Python). -/
def parseNumberTok (cs : List Char) : Option (JValue × List Char) :=
  let negRes : Bool × List Char :=
    match cs with
    | '-' :: rest => (true, rest)
    | _ => (false, cs)
  let neg := negRes.1
  let cs1 := negRes.2
  if cs1.take 8 = infinityChars ∧ neg then
    Option.some (JValue.fnum negInfinityStr, cs1.drop 8)
  else
    match cs1 with
    | c :: rest =>
      if isDigitCh c then
        let ip : List Char × List Char :=
          if c = '0' then ([c], rest)
          else (c :: rest.takeWhile isDigitCh, rest.dropWhile isDigitCh)
        let intDigits := ip.1
        let afterInt := ip.2
        let fp : List Char × List Char :=
          match afterInt with
          | '.' :: d :: ds =>
            if isDigitCh d then ('.' :: d :: ds.takeWhile isDigitCh, ds.dropWhile isDigitCh)
            else ([], afterInt)
          | _ => ([], afterInt)
        let fracDigits := fp.1
        let afterFrac := fp.2
        let ep : List Char × List Char :=
          match afterFrac with
          | e :: '+' :: d :: ds =>
            if (e = 'e' ∨ e = 'E') ∧ isDigitCh d then
              (e :: '+' :: d :: ds.takeWhile isDigitCh, ds.dropWhile isDigitCh)
            else ([], afterFrac)
          | e :: '-' :: d :: ds =>
            if (e = 'e' ∨ e = 'E') ∧ isDigitCh d then
              (e :: '-' :: d :: ds.takeWhile isDigitCh, ds.dropWhile isDigitCh)
            else ([], afterFrac)
          | e :: d :: ds =>
            if (e = 'e' ∨ e = 'E') ∧ isDigitCh d then
              (e :: d :: ds.takeWhile isDigitCh, ds.dropWhile isDigitCh)
            else ([], afterFrac)
          | _ => ([], afterFrac)
        let expDigits := ep.1
        let restAll := ep.2
        if fracDigits.isEmpty ∧ expDigits.isEmpty then
          let v : Int := Int.ofNat (digitsToNat intDigits)
          Option.some (JValue.num (if neg then -v else v), restAll)
        else
          let lexeme := String.mk
            ((if neg then ['-'] else []) ++ intDigits ++ fracDigits ++ expDigits)
          Option.some (JValue.fnum lexeme, restAll)
      else Option.none
    | [] => Option.none

def nullChars : List Char := ['n', 'u', 'l', 'l']

def trueChars : List Char := ['t', 'r', 'u', 'e']

def falseChars : List Char := ['f', 'a', 'l', 's', 'e']

def nanChars : List Char := ['N', 'a', 'N']

mutual

/-- One JSON value starting at (whitespace-skipped) `cs`; returns it and
the unconsumed remainder.  Fuel bounds the recursion depth. -/
def parseVal : Nat → List Char → Option (JValue × List Char)
  | 0, _ => Option.none
  | fuel + 1, cs0 =>
    let cs := skipWs cs0
    match cs with
    | 'n' :: rest =>
      if rest.take 3 = nullChars.drop 1 then Option.some (JValue.null, rest.drop 3)
      else Option.none
    | 't' :: rest =>
      if rest.take 3 = trueChars.drop 1 then Option.some (JValue.bool true, rest.drop 3)
      else Option.none
    | 'f' :: rest =>
      if rest.take 4 = falseChars.drop 1 then Option.some (JValue.bool false, rest.drop 4)
      else Option.none
    | 'N' :: rest =>
      if rest.take 2 = nanChars.drop 1 then Option.some (JValue.fnum nanStr, rest.drop 2)
      else Option.none
    | 'I' :: rest =>
      if rest.take 7 = infinityChars.drop 1 then
        Option.some (JValue.fnum infinityStr, rest.drop 7)
      else Option.none
    | '"' :: rest => (parseStringBody rest []).map (fun p => (JValue.str p.1, p.2))
    | '[' :: rest =>
      match skipWs rest with
      | ']' :: r2 => Option.some (JValue.arr [], r2)
      | _ => (parseElems fuel rest).map (fun p => (JValue.arr p.1, p.2))
    | '{' :: rest =>
      match skipWs rest with
      | '}' :: r2 => Option.some (JValue.obj [], r2)
      | _ => (parseMembers fuel rest).map (fun p => (JValue.obj p.1, p.2))
    | _ => parseNumberTok cs

/-- Comma-separated array elements up to the closing bracket. -/
def parseElems : Nat → List Char → Option (List JValue × List Char)
  | 0, _ => Option.none
  | fuel + 1, cs =>
    match parseVal fuel cs with
    | Option.none => Option.none
    | Option.some (v, rest) =>
      match skipWs rest with
      | ',' :: r2 =>
        match parseElems fuel r2 with
        | Option.none => Option.none
        | Option.some (vs, r3) => Option.some (v :: vs, r3)
      | ']' :: r2 => Option.some ([v], r2)
      | _ => Option.none

/-- Comma-separated object members up to the closing brace. -/
def parseMembers : Nat → List Char → Option (List (String × JValue) × List Char)
  | 0, _ => Option.none
  | fuel + 1, cs =>
    match skipWs cs with
    | '"' :: rest =>
      match parseStringBody rest [] with
      | Option.none => Option.none
      | Option.some (key, r1) =>
        match skipWs r1 with
        | ':' :: r2 =>
          match parseVal fuel r2 with
          | Option.none => Option.none
          | Option.some (v, r3) =>
            match skipWs r3 with
            | ',' :: r4 =>
              match parseMembers fuel r4 with
              | Option.none => Option.none
              | Option.some (kvs, r5) => Option.some ((key, v) :: kvs, r5)
            | '}' :: r4 => Option.some ([(key, v)], r4)
            | _ => Option.none
        | _ => Option.none
    | _ => Option.none

end

/-- json.loads: parse one value and require only whitespace after it,
otherwise fail (Python raises JSONDecodeError; modelled as none). -/
def jsonLoads (s : String) : Option JValue :=
  match parseVal (2 * s.length + 8) s.data with
  | Option.some (v, rest) => if (skipWs rest).isEmpty then Option.some v else Option.none
  | Option.none => Option.none

/-! ### main.py: response normalization (chat_endpoint, lines 255-287) -/

/-- Python whitespace for str.strip() and the regex \s class (ASCII part:
space, tab, newline, carriage return, vertical tab, form feed). -/
def isPyWs (c : Char) : Bool :=
  c = ' ' || c = '\t' || c = '\n' || c = '\r' || c = '\x0b' || c = '\x0c'

/-- Python str.strip(). -/
def pyStripChars (l : List Char) : List Char :=
  ((l.dropWhile isPyWs).reverse.dropWhile isPyWs).reverse

/-- Drop the given prefix, or fail. -/
def dropPrefixChars : List Char → List Char → Option (List Char)
  | [], l => Option.some l
  | _ :: _, [] => Option.none
  | p :: ps, c :: cs => if c = p then dropPrefixChars ps cs else Option.none

/-- The cleanup `re.sub(r"^```json\s*|\s*```$", "", content.strip()).strip()`:
strip, remove a leading ```json with trailing whitespace, remove a
trailing ``` with leading whitespace, strip again.  (Because the string is
stripped first, `$` coincides with the end of the string.) -/
def stripFencesChars (l : List Char) : List Char :=
  let t0 := pyStripChars l
  let t1 :=
    match dropPrefixChars fenceJsonStr.data t0 with
    | Option.some r => r.dropWhile isPyWs
    | Option.none => t0
  let t2 :=
    match dropPrefixChars fenceStr.data t1.reverse with
    | Option.some r => (r.dropWhile isPyWs).reverse
    | Option.none => t1
  pyStripChars t2

def stripFences (s : String) : String := String.mk (stripFencesChars s.data)

/-- ChatResponseItem (main.py): message, type (default "text"), optional
data payload.  Fields hold parsed JSON values; pydantic's type validation
of the fields is not modelled (all claim inputs are well-typed). -/
structure ChatResponseItem where
  message : JValue
  type : JValue
  data : Option JValue
deriving Repr

/-- One element of a parsed JSON list, as converted by
`process_data_into_items`: `message`/`type` via dict.get with defaults,
`data` always the synthesized dict of the "phase"/"focus_habit"/"action"
fields (each None when absent).  A non-dict element raises
AttributeError in Python (`item.get` on a non-dict), modelled as error. -/
def processListItem : JValue → Except String ChatResponseItem
  | .obj kvs =>
    .ok
      { message := jGetD kvs msgKey (JValue.str emptyStr)
        type := jGetD kvs typeKey (JValue.str textVal)
        data := Option.some (JValue.obj
          [(phaseKey, jGetD kvs phaseKey JValue.null),
           (focusHabitKey, jGetD kvs focusHabitKey JValue.null),
           (actionKey, jGetD kvs actionKey JValue.null)]) }
  | _ => .error attrErrStr

/-- The for-loop of `process_data_into_items` over a parsed list: items in
input order; the first failing element aborts with its exception. -/
def processItemsLoop : List JValue → Except String (List ChatResponseItem)
  | [] => .ok []
  | x :: xs =>
    match processListItem x with
    | .error e => .error e
    | .ok i =>
      match processItemsLoop xs with
      | .error e => .error e
      | .ok rest => .ok (i :: rest)

/-- The `data.get("data")` of the single-object branch: absent key or a
null value both give pydantic `data=None`. -/
def dataFieldOf (kvs : List (String × JValue)) : Option JValue :=
  match jGet kvs dataKey with
  | Option.some JValue.null => Option.none
  | other => other

/-- main.py `process_data_into_items(data)`: a list maps elementwise, a
dict gives one item (data from its explicit "data" field), and any other
JSON value yields the empty list. -/
def process_data_into_items (data : JValue) : Except String (List ChatResponseItem) :=
  match data with
  | .arr items => processItemsLoop items
  | .obj kvs =>
    .ok
      [{ message := jGetD kvs msgKey (JValue.str emptyStr)
         type := jGetD kvs typeKey (JValue.str textVal)
         data := dataFieldOf kvs }]
  | _ => .ok []

/-- One part of a multi-part (Gemini) message content: a structured block
(modelled as a string-valued dict, as Gemini emits) or a plain string. -/
inductive ContentPart where
  | block (kvs : List (String × String))
  | str (s : String)

/-- Raw agent message content: a plain string or a list of parts. -/
inductive Content where
  | str (s : String)
  | parts (ps : List ContentPart)

def sqStr : String := "\x27"

/-- Python str() of a string-valued dict, e.g. `{'text': 'part1'}` (the
default taken by `b.get("text", b)` when the block has no "text" key).
Values without quotes needing repr alternation are assumed. -/
def pyStrOfBlock (kvs : List (String × String)) : String :=
  lbraceStr
    ++ String.intercalate commaSepStr
         (kvs.map (fun p => sqStr ++ p.1 ++ sqStr ++ colonSepStr ++ sqStr ++ p.2 ++ sqStr))
    ++ rbraceStr

/-- main.py line 261: `str(b.get("text", b)) if isinstance(b, dict) else str(b)`. -/
def partToStr : ContentPart → String
  | .block kvs =>
    match lookupKey kvs textKey with
    | Option.some v => v
    | Option.none => pyStrOfBlock kvs
  | .str s => s

/-- main.py lines 258-264: a list content is joined into one string with
a single space between consecutive parts. -/
def contentToString : Content → String
  | .str s => s
  | .parts ps => String.intercalate spaceStr (ps.map partToStr)

/-- The response-processing tail of `chat_endpoint` (main.py lines
255-287), given the content of a present last message: join multi-part
content, empty-content guard, fence cleanup, json.loads, then either
`process_data_into_items` on the parsed value or the free-text fallback
item built from the (uncleaned) `response_content`. -/
def chat_normalize (content : Content) : Except String (List ChatResponseItem) :=
  let response_content := contentToString content
  if response_content = emptyStr then
    .ok [{ message := JValue.str emptyRespStr, type := JValue.str errorVal,
           data := Option.none }]
  else
    let cleaned_content := stripFences response_content
    match jsonLoads cleaned_content with
    | Option.some data => process_data_into_items data
    | Option.none =>
      .ok [{ message := JValue.str response_content, type := JValue.str textVal,
             data := Option.none }]

/-! ### agents.py: the Assistant retry loop -/

/-- Result of one `runnable.invoke(state)`: the tool calls (opaque here)
and the textual content. -/
structure ModelResult where
  tool_calls : List String
  content : String

/-- LangGraph state for the assistant node: the message list (and the
lifestyle context dict, unchanged by the loop). -/
structure AgentState where
  messages : List String
  lifestyle_context : Telemetry

/-- The Python emptiness test on an invocation result:
`not result.tool_calls and (not result.content or result.content == "")`
(for string content the two disjuncts coincide). -/
def isEmptyResult (r : ModelResult) : Bool :=
  r.tool_calls.isEmpty && (r.content == emptyStr)

/-- One pass of the loop body's state update: append the synthesized
follow-up message, keeping the rest of the state. -/
def assistantStep (s : AgentState) : AgentState :=
  { s with messages := s.messages ++ [followupMsg] }

/-- `Assistant.__call__`'s `while True` loop, embedded with fuel: invoke
the runnable, return its result unless it is empty, otherwise append the
follow-up message and retry.  `none` means the fuel bound was exhausted
without the loop terminating. -/
def assistantCall (runnable : AgentState → ModelResult) :
    Nat → AgentState → Option ModelResult
  | 0, _ => Option.none
  | fuel + 1, s =>
    let result := runnable s
    if isEmptyResult result then assistantCall runnable fuel (assistantStep s)
    else Option.some result

set_option maxRecDepth 10000

theorem byteHex_length (n : Nat) : (byteHex n).length = 2 := rfl

theorem word32HexLE_length (x : Nat) : (word32HexLE x).length = 8 := by
  simp [word32HexLE, String.length_append, byteHex_length]

theorem md5Hex_length (m : List Nat) : (md5Hex m).length = 32 := by
  simp [md5Hex, String.length_append, word32HexLE_length]

/-- A fingerprint is never the empty string: the sentinel has length 10
and an md5 hexdigest has length 32, so Python's truthiness test on the
stored hash always passes for genuinely stored fingerprints. -/
theorem get_log_hash_ne_empty (d : Telemetry) : get_log_hash d ≠ emptyStr := by
  intro h
  have hlen := congrArg String.length h
  unfold get_log_hash at hlen
  by_cases hd : List.isEmpty d
  · rw [if_pos hd] at hlen
    exact absurd hlen (by decide)
  · rw [if_neg hd] at hlen
    rw [md5Hex_length] at hlen
    exact absurd hlen (by decide)

theorem lookupKey_eraseKey_self (d : List (String × String)) (k : String) :
    lookupKey (eraseKey d k) k = Option.none := by
  induction d with
  | nil => rfl
  | cons p rest ih =>
    obtain ⟨pk, pv⟩ := p
    by_cases h : pk = k
    · simpa [eraseKey, h] using ih
    · simpa [eraseKey, lookupKey, h] using ih

theorem lookupKey_eraseKey_ne (d : List (String × String)) (k k' : String)
    (h : k ≠ k') : lookupKey (eraseKey d k') k = lookupKey d k := by
  induction d with
  | nil => rfl
  | cons p rest ih =>
    obtain ⟨pk, pv⟩ := p
    by_cases hp : pk = k'
    · subst hp
      simpa [eraseKey, lookupKey, Ne.symm h] using ih
    · by_cases hk : pk = k
      · simp [eraseKey, lookupKey, hp, hk, h]
      · simpa [eraseKey, lookupKey, hp, hk] using ih

theorem lookupKey_setKey_self (d : List (String × String)) (k v : String) :
    lookupKey (setKey d k v) k = Option.some v := by
  simp [setKey, lookupKey]

theorem lookupKey_setKey_ne (d : List (String × String)) (k k' v : String)
    (h : k ≠ k') : lookupKey (setKey d k' v) k = lookupKey d k := by
  simp [setKey, lookupKey, Ne.symm h, lookupKey_eraseKey_ne d k k' h]

/-- The fingerprint key and the checkpoint key of a session never
collide (their namespaces have different lengths). -/
theorem hashKey_ne_checkpointKey (id : String) : hashKey id ≠ checkpointKey id := by
  intro h
  have hlen := congrArg String.length h
  rw [hashKey, checkpointKey, String.length_append, String.length_append] at hlen
  have h1 : hashPrefixStr.length = 5 := by decide
  have h2 : checkpointPrefixStr.length = 11 := by decide
  omega

/-- Branch characterization: with the store reachable and a stored
fingerprint equal to the current one, the validator re-stores the
fingerprint and returns the id. -/
theorem validate_eq_set_of_match (store : RedisStore) (id : String) (t : Telemetry)
    (hav : store.available = true)
    (h : lookupKey store.data (hashKey id) = Option.some (get_log_hash t)) :
    validate_session_and_get_config store id t
      = Except.ok (id, { store with data := setKey store.data (hashKey id) (get_log_hash t) }) := by
  simp [validate_session_and_get_config, redisGet, redisSet, hav, h, get_log_hash_ne_empty t]

/-- Branch characterization: with the store reachable and no stored
fingerprint, the validator stores the fingerprint and returns the id. -/
theorem validate_eq_set_of_none (store : RedisStore) (id : String) (t : Telemetry)
    (hav : store.available = true)
    (h : lookupKey store.data (hashKey id) = Option.none) :
    validate_session_and_get_config store id t
      = Except.ok (id, { store with data := setKey store.data (hashKey id) (get_log_hash t) }) := by
  simp [validate_session_and_get_config, redisGet, redisSet, hav, h]

/-- Branch characterization: with the store reachable and a stored
fingerprint differing from the current one, the validator deletes the
checkpoint entry and returns the id at once. -/
theorem validate_eq_delete_of_mismatch (store : RedisStore) (id : String)
    (t prev : Telemetry) (hav : store.available = true)
    (hstored : lookupKey store.data (hashKey id) = Option.some (get_log_hash prev))
    (hdiff : get_log_hash prev ≠ get_log_hash t) :
    validate_session_and_get_config store id t
      = Except.ok (id, { store with data := eraseKey store.data (checkpointKey id) }) := by
  simp [validate_session_and_get_config, redisGet, redisDelete, hav, hstored,
    get_log_hash_ne_empty prev, hdiff]

/-! ### Witness inputs (concrete sessions, telemetry and stores) -/

def moodStr : String := "mood"

def stepsStr : String := "steps"

def okStr : String := "ok"

def sadStr : String := "sad"

def histStr : String := "history"

def fooStr : String := "foo"

def barStr : String := "bar"

def xStr : String := "x"

def sess1Str : String := "s1"

def sess2Str : String := "s2"

def sess3Str : String := "s3"

def prev1W : Telemetry := [(moodStr, PyVal.str okStr)]

def t1W : Telemetry := [(moodStr, PyVal.str sadStr)]

def store1W : RedisStore :=
  { data := [(hashKey sess1Str, get_log_hash prev1W), (checkpointKey sess1Str, histStr)],
    available := true }

def prev3W : Telemetry := [(stepsStr, PyVal.int 100)]

def t3W : Telemetry := [(stepsStr, PyVal.int 200)]

def store3W : RedisStore :=
  { data := [(hashKey sess3Str, get_log_hash prev3W), (checkpointKey sess3Str, histStr)],
    available := true }

def store2W : RedisStore := { data := [], available := true }

def storeDownW : RedisStore := { data := [], available := false }

def a2W : Telemetry := [(stepsStr, PyVal.int 100), (fooStr, PyVal.int 1)]

def b2W : Telemetry := [(barStr, PyVal.str xStr), (stepsStr, PyVal.int 100)]

def noKeysW : Telemetry := [(fooStr, PyVal.int 1)]

/-! ### Claims about the session validator (agents.py) -/

/-- C1: if the store holds a fingerprint at `hash:<session_id>` that
differs from `fingerprint(telemetry)`, `validate_session` deletes the
entry `checkpoint:<session_id>` and returns the session id unchanged —
the identity is never replaced, only the history is invalidated. -/
theorem validate_mismatch_invalidates_history (store : RedisStore) (id : String)
    (t prev : Telemetry) (hav : store.available = true)
    (hstored : lookupKey store.data (hashKey id) = Option.some (get_log_hash prev))
    (hdiff : get_log_hash prev ≠ get_log_hash t) :
    ∃ store₁,
      validate_session_and_get_config store id t = Except.ok (id, store₁)
        ∧ lookupKey store₁.data (checkpointKey id) = Option.none
        ∧ store₁.data = eraseKey store.data (checkpointKey id) := by
  refine ⟨{ store with data := eraseKey store.data (checkpointKey id) }, ?_, ?_, rfl⟩
  · exact validate_eq_delete_of_mismatch store id t prev hav hstored hdiff
  · exact lookupKey_eraseKey_self store.data (checkpointKey id)

/-- Witness for C1: a session whose stored fingerprint (of mood "ok")
differs from the fingerprint of the new telemetry (mood "sad") has its
checkpoint entry deleted while the id is preserved. -/
theorem validate_mismatch_invalidates_history_witness :
    (store1W.available = true
        ∧ lookupKey store1W.data (hashKey sess1Str) = Option.some (get_log_hash prev1W)
        ∧ get_log_hash prev1W ≠ get_log_hash t1W)
      ∧ ∃ store₁,
          validate_session_and_get_config store1W sess1Str t1W = Except.ok (sess1Str, store₁)
            ∧ lookupKey store₁.data (checkpointKey sess1Str) = Option.none
            ∧ store₁.data = eraseKey store1W.data (checkpointKey sess1Str) :=
  ⟨⟨rfl, by decide, by decide⟩,
    validate_mismatch_invalidates_history store1W sess1Str t1W prev1W rfl (by decide) (by decide)⟩

/-- C3: with no stored fingerprint — or a stored fingerprint equal to the
current one — the validator writes `fingerprint(telemetry)` under
`hash:<session_id>`, returns the id unchanged and leaves the checkpoint
entry untouched; and a repeated call with the same telemetry (in
particular the always-empty-telemetry session, whose sentinel fingerprint
equals itself) again preserves the checkpoint. -/
theorem validate_first_use_or_match_preserves (store : RedisStore) (id : String)
    (t : Telemetry) (hav : store.available = true)
    (hstored : lookupKey store.data (hashKey id) = Option.none
        ∨ lookupKey store.data (hashKey id) = Option.some (get_log_hash t)) :
    ∃ store₁,
      validate_session_and_get_config store id t = Except.ok (id, store₁)
        ∧ lookupKey store₁.data (hashKey id) = Option.some (get_log_hash t)
        ∧ lookupKey store₁.data (checkpointKey id) = lookupKey store.data (checkpointKey id)
        ∧ ∃ store₂,
            validate_session_and_get_config store₁ id t = Except.ok (id, store₂)
              ∧ lookupKey store₂.data (checkpointKey id)
                  = lookupKey store.data (checkpointKey id) := by
  have hck : checkpointKey id ≠ hashKey id := (hashKey_ne_checkpointKey id).symm
  refine ⟨{ store with data := setKey store.data (hashKey id) (get_log_hash t) }, ?_, ?_, ?_, ?_⟩
  · rcases hstored with h | h
    · exact validate_eq_set_of_none store id t hav h
    · exact validate_eq_set_of_match store id t hav h
  · exact lookupKey_setKey_self store.data (hashKey id) (get_log_hash t)
  · exact lookupKey_setKey_ne store.data (checkpointKey id) (hashKey id) (get_log_hash t) hck
  · refine ⟨_, validate_eq_set_of_match _ id t hav ?_, ?_⟩
    · exact lookupKey_setKey_self store.data (hashKey id) (get_log_hash t)
    · calc lookupKey (setKey (setKey store.data (hashKey id) (get_log_hash t)) (hashKey id)
              (get_log_hash t)) (checkpointKey id)
          = lookupKey (setKey store.data (hashKey id) (get_log_hash t)) (checkpointKey id) :=
            lookupKey_setKey_ne _ (checkpointKey id) (hashKey id) (get_log_hash t) hck
        _ = lookupKey store.data (checkpointKey id) :=
            lookupKey_setKey_ne store.data (checkpointKey id) (hashKey id) (get_log_hash t) hck

/-- Witness for C3: a fresh session (empty store) with empty telemetry —
the sentinel fingerprint is stored, the id is returned unchanged, and the
immediately repeated call does not invalidate anything. -/
theorem validate_first_use_or_match_preserves_witness :
    (store2W.available = true
        ∧ lookupKey store2W.data (hashKey sess2Str) = Option.none)
      ∧ ∃ store₁,
          validate_session_and_get_config store2W sess2Str [] = Except.ok (sess2Str, store₁)
            ∧ lookupKey store₁.data (hashKey sess2Str) = Option.some (get_log_hash [])
            ∧ lookupKey store₁.data (checkpointKey sess2Str)
                = lookupKey store2W.data (checkpointKey sess2Str)
            ∧ ∃ store₂,
                validate_session_and_get_config store₁ sess2Str [] = Except.ok (sess2Str, store₂)
                  ∧ lookupKey store₂.data (checkpointKey sess2Str)
                      = lookupKey store2W.data (checkpointKey sess2Str) :=
  ⟨⟨rfl, rfl⟩,
    validate_first_use_or_match_preserves store2W sess2Str [] rfl (Or.inl rfl)⟩

/-- C5: on the mismatch branch the validator returns right after deleting
the checkpoint and does not re-store the new fingerprint (the `set` after
the `return` is dead code): the value at `hash:<session_id>` is left
unchanged, so a second call with the same changed telemetry mismatches
and deletes the checkpoint again. -/
theorem validate_mismatch_skips_restore (store : RedisStore) (id : String)
    (t prev : Telemetry) (hav : store.available = true)
    (hstored : lookupKey store.data (hashKey id) = Option.some (get_log_hash prev))
    (hdiff : get_log_hash prev ≠ get_log_hash t) :
    ∃ store₁ store₂,
      validate_session_and_get_config store id t = Except.ok (id, store₁)
        ∧ lookupKey store₁.data (hashKey id) = Option.some (get_log_hash prev)
        ∧ validate_session_and_get_config store₁ id t = Except.ok (id, store₂)
        ∧ lookupKey store₂.data (checkpointKey id) = Option.none
        ∧ lookupKey store₂.data (hashKey id) = Option.some (get_log_hash prev) := by
  have hhk : hashKey id ≠ checkpointKey id := hashKey_ne_checkpointKey id
  have h1 : lookupKey (eraseKey store.data (checkpointKey id)) (hashKey id)
      = Option.some (get_log_hash prev) := by
    rw [lookupKey_eraseKey_ne store.data (hashKey id) (checkpointKey id) hhk]
    exact hstored
  refine ⟨{ store with data := eraseKey store.data (checkpointKey id) }, _,
    validate_eq_delete_of_mismatch store id t prev hav hstored hdiff, h1,
    validate_eq_delete_of_mismatch _ id t prev hav h1 hdiff, ?_, ?_⟩
  · exact lookupKey_eraseKey_self _ (checkpointKey id)
  · rw [lookupKey_eraseKey_ne _ (hashKey id) (checkpointKey id) hhk]
    exact h1

/-- Witness for C5: steps going 100 → 200; after the first invalidation
the stored fingerprint still belongs to steps=100, and the repeated call
with steps=200 deletes the checkpoint again. -/
theorem validate_mismatch_skips_restore_witness :
    (store3W.available = true
        ∧ lookupKey store3W.data (hashKey sess3Str) = Option.some (get_log_hash prev3W)
        ∧ get_log_hash prev3W ≠ get_log_hash t3W)
      ∧ ∃ store₁ store₂,
          validate_session_and_get_config store3W sess3Str t3W = Except.ok (sess3Str, store₁)
            ∧ lookupKey store₁.data (hashKey sess3Str) = Option.some (get_log_hash prev3W)
            ∧ validate_session_and_get_config store₁ sess3Str t3W = Except.ok (sess3Str, store₂)
            ∧ lookupKey store₂.data (checkpointKey sess3Str) = Option.none
            ∧ lookupKey store₂.data (hashKey sess3Str) = Option.some (get_log_hash prev3W) :=
  ⟨⟨rfl, by decide, by decide⟩,
    validate_mismatch_skips_restore store3W sess3Str t3W prev3W rfl (by decide) (by decide)⟩

/-- C4 (failing-input evaluation): when the session store is unavailable,
`validate_session_and_get_config` does not degrade to a first-use
session — the very first redis command raises and the exception escapes
the function (in `chat_endpoint` it is then converted into an HTTP 500,
failing the chat request). -/
theorem validate_store_unavailable_raises (store : RedisStore) (id : String)
    (t : Telemetry) (h : store.available = false) :
    validate_session_and_get_config store id t = Except.error connErrStr := by
  simp [validate_session_and_get_config, redisGet, h]

/-- Witness for C4: a concrete unreachable store makes the validator
raise instead of succeeding. -/
theorem validate_store_unavailable_raises_witness :
    storeDownW.available = false
      ∧ validate_session_and_get_config storeDownW sess1Str [] = Except.error connErrStr :=
  ⟨rfl, validate_store_unavailable_raises storeDownW sess1Str [] rfl⟩

/-! ### Claims about the fingerprint function (agents.py get_log_hash) -/

/-- C2 counterexample: the empty record and a non-empty record with no
allow-listed keys have identical (empty) allow-listed subsets, yet the
first maps to the sentinel "empty_logs" while the second hashes the empty
projection — the fingerprints differ. -/
theorem fingerprint_allowlist_agreement_counterexample :
    (∀ k ∈ lifestyle_keys, lookupT ([] : Telemetry) k = lookupT noKeysW k)
      ∧ get_log_hash ([] : Telemetry) ≠ get_log_hash noKeysW := by
  constructor
  · decide
  · decide

/-- C2 amended: two records agreeing on every allow-listed key get the
same fingerprint regardless of other keys and of insertion order,
provided both are empty or both are non-empty (an empty record takes the
sentinel path instead of the hash path). -/
theorem fingerprint_depends_only_on_allowlist (A B : Telemetry)
    (hkeys : ∀ k ∈ lifestyle_keys, lookupT A k = lookupT B k)
    (hemp : A = [] ↔ B = []) :
    get_log_hash A = get_log_hash B := by
  by_cases hA : A = []
  · rw [hA, hemp.mp hA]
  · have hB : B ≠ [] := fun h => hA (hemp.mpr h)
    obtain ⟨a, as, rfl⟩ := List.exists_cons_of_ne_nil hA
    obtain ⟨b, bs, rfl⟩ := List.exists_cons_of_ne_nil hB
    unfold get_log_hash
    have hproj : lifestyle_keys.filterMap
          (fun k => (lookupT (a :: as) k).map (fun v => (k, v)))
        = lifestyle_keys.filterMap
          (fun k => (lookupT (b :: bs) k).map (fun v => (k, v))) :=
      List.filterMap_congr (fun k hk => by rw [hkeys k hk])
    simp only [List.isEmpty, hproj]

/-- Witness for C2 amended: two non-empty records sharing steps=100 and
differing in extraneous keys and order hash identically. -/
theorem fingerprint_depends_only_on_allowlist_witness :
    ((∀ k ∈ lifestyle_keys, lookupT a2W k = lookupT b2W k)
        ∧ (a2W = [] ↔ b2W = []))
      ∧ get_log_hash a2W = get_log_hash b2W :=
  ⟨⟨by decide, by decide⟩,
    fingerprint_depends_only_on_allowlist a2W b2W (by decide) (by decide)⟩

/-! ### Claims about the response normalizer (main.py) -/

def hiStr : String := "hi"

def fencedHiStr : String := "```json\n[\x7b\"message\":\"hi\",\"type\":\"text\"\x7d]\n```"

def fencedTextStr : String := "```json\nhello world\n```"

def helloWorldStr : String := "hello world"

def plainTextStr : String := "just plain text"

def part1Str : String := "part1"

def part2SpStr : String := " part2"

def doubleSpacedStr : String := "part1  part2"

def singleSpacedStr : String := "part1 part2"

def dataProbeW : List (String × JValue) := [(msgKey, JValue.str hiStr), (dataKey, JValue.str xStr)]

/-- C7 counterexample: normalizing the fenced one-element list yields the
item with message "hi" and type "text", but its data field is the
synthesized dict with null phase/focus_habit/action — not null. -/
theorem normalize_fenced_list_data_counterexample :
    chat_normalize (Content.str fencedHiStr)
        = Except.ok [{ message := JValue.str hiStr, type := JValue.str textVal,
                       data := Option.some (JValue.obj
                         [(phaseKey, JValue.null), (focusHabitKey, JValue.null),
                          (actionKey, JValue.null)]) }]
      ∧ Option.some (JValue.obj
            [(phaseKey, JValue.null), (focusHabitKey, JValue.null),
             (actionKey, JValue.null)]) ≠ (Option.none : Option JValue) :=
  ⟨rfl, by simp⟩

/-- C7 amended: the fenced example yields exactly one item whose data is
the synthesized phase/focus_habit/action dict (each null); in general a
list element's data is always that synthesized dict — an explicit "data"
field of a list element is ignored (it is consulted only on the
single-object branch). -/
theorem normalize_list_item_data_synthesis :
    chat_normalize (Content.str fencedHiStr)
        = Except.ok [{ message := JValue.str hiStr, type := JValue.str textVal,
                       data := Option.some (JValue.obj
                         [(phaseKey, JValue.null), (focusHabitKey, JValue.null),
                          (actionKey, JValue.null)]) }]
      ∧ (∀ kvs : List (String × JValue),
          processListItem (JValue.obj kvs)
            = Except.ok { message := jGetD kvs msgKey (JValue.str emptyStr),
                          type := jGetD kvs typeKey (JValue.str textVal),
                          data := Option.some (JValue.obj
                            [(phaseKey, jGetD kvs phaseKey JValue.null),
                             (focusHabitKey, jGetD kvs focusHabitKey JValue.null),
                             (actionKey, jGetD kvs actionKey JValue.null)]) })
      ∧ processListItem (JValue.obj dataProbeW)
          = Except.ok { message := JValue.str hiStr, type := JValue.str textVal,
                        data := Option.some (JValue.obj
                          [(phaseKey, JValue.null), (focusHabitKey, JValue.null),
                           (actionKey, JValue.null)]) } :=
  ⟨rfl, fun _ => rfl, rfl⟩

/-- C8 counterexample: for a fenced non-JSON reply the fallback item
carries the original `response_content` (with the fences), not the
cleaned string. -/
theorem normalize_parse_failure_counterexample :
    stripFences fencedTextStr = helloWorldStr
      ∧ jsonLoads helloWorldStr = Option.none
      ∧ chat_normalize (Content.str fencedTextStr)
          = Except.ok [{ message := JValue.str fencedTextStr, type := JValue.str textVal,
                         data := Option.none }]
      ∧ fencedTextStr ≠ helloWorldStr :=
  ⟨rfl, rfl, rfl, by decide⟩

/-- C8 amended: for every non-empty reply whose cleaned form fails to
parse as JSON, normalization returns exactly one item of type "text"
whose message is the original reply string (not the cleaned one); the
parse failure is never surfaced as an error. -/
theorem normalize_parse_failure_returns_raw (s : String) (hne : s ≠ emptyStr)
    (hp : jsonLoads (stripFences s) = Option.none) :
    chat_normalize (Content.str s)
      = Except.ok [{ message := JValue.str s, type := JValue.str textVal,
                     data := Option.none }] := by
  simp only [chat_normalize, contentToString]
  rw [if_neg hne, hp]

/-- Witness for C8 amended: plain free text falls back to a single text
item carrying that text. -/
theorem normalize_parse_failure_returns_raw_witness :
    (plainTextStr ≠ emptyStr ∧ jsonLoads (stripFences plainTextStr) = Option.none)
      ∧ chat_normalize (Content.str plainTextStr)
          = Except.ok [{ message := JValue.str plainTextStr, type := JValue.str textVal,
                         data := Option.none }] :=
  ⟨⟨by decide, rfl⟩, normalize_parse_failure_returns_raw plainTextStr (by decide) rfl⟩

/-- C9 counterexample: joining the example parts produces
"part1  part2" (the separator space plus the part's own leading space),
not "part1 part2". -/
theorem join_parts_counterexample :
    contentToString (Content.parts
        [ContentPart.block [(textKey, part1Str)], ContentPart.str part2SpStr])
      = doubleSpacedStr
      ∧ doubleSpacedStr ≠ singleSpacedStr :=
  ⟨rfl, by decide⟩

/-- C9 amended: a list-of-parts reply is reduced before any parsing to
the single string joining each part's text field (or its string form)
with one space between consecutive parts, parts' own whitespace
preserved; the example therefore reduces to "part1  part2" and, failing
to parse as JSON, comes back as a single text item with that message. -/
theorem join_parts_single_separator :
    (∀ ps : List ContentPart,
        chat_normalize (Content.parts ps)
          = chat_normalize (Content.str (String.intercalate spaceStr (ps.map partToStr))))
      ∧ chat_normalize (Content.parts
            [ContentPart.block [(textKey, part1Str)], ContentPart.str part2SpStr])
          = Except.ok [{ message := JValue.str doubleSpacedStr, type := JValue.str textVal,
                         data := Option.none }] :=
  ⟨fun _ => rfl, rfl⟩

/-! ### Claim about the Assistant retry loop (agents.py) -/

/-- C10: the empty-output retry loop of `Assistant.__call__` has no
iteration bound: if the runnable always returns an empty result the loop
never terminates (it exhausts every fuel bound), and it terminates
exactly under the assumption that the model eventually returns tool
calls or non-empty content (non-empty at retry step k is reached within
fuel k+1). -/
theorem assistant_retry_loop_unbounded (runnable : AgentState → ModelResult) :
    ((∀ s, isEmptyResult (runnable s) = true)
        → ∀ fuel s, assistantCall runnable fuel s = Option.none)
      ∧ (∀ k s, isEmptyResult (runnable (assistantStep^[k] s)) = false
          → (assistantCall runnable (k + 1) s).isSome = true) := by
  constructor
  · intro hEmpty fuel
    induction fuel with
    | zero => intro s; rfl
    | succ n ih =>
      intro s
      simp only [assistantCall, hEmpty s, if_true]
      exact ih (assistantStep s)
  · intro k
    induction k with
    | zero =>
      intro s h
      simp only [Function.iterate_zero, id_eq] at h
      simp [assistantCall, h]
    | succ n ih =>
      intro s h
      rw [Function.iterate_succ_apply] at h
      by_cases he : isEmptyResult (runnable s) = true
      · simp only [assistantCall, he, if_true]
        exact ih (assistantStep s) h
      · simp [assistantCall, he]

def helloStr : String := "hello"

def emptyRunnableW : AgentState → ModelResult :=
  fun _ => { tool_calls := [], content := emptyStr }

def demoRunnableW : AgentState → ModelResult :=
  fun s =>
    if s.messages.length == 2 then { tool_calls := [], content := helloStr }
    else { tool_calls := [], content := emptyStr }

def agent0W : AgentState := { messages := [], lifestyle_context := [] }

/-- Witness for C10: an always-empty model makes the loop spin past any
fuel bound; a model that answers after two retries terminates the loop
within three iterations. -/
theorem assistant_retry_loop_unbounded_witness :
    ((∀ s, isEmptyResult (emptyRunnableW s) = true)
        ∧ isEmptyResult (demoRunnableW (assistantStep^[2] agent0W)) = false)
      ∧ assistantCall emptyRunnableW 7 agent0W = Option.none
      ∧ (assistantCall demoRunnableW 3 agent0W).isSome = true :=
  ⟨⟨fun s => rfl, by decide⟩,
    (assistant_retry_loop_unbounded emptyRunnableW).1 (fun s => rfl) 7 agent0W,
    (assistant_retry_loop_unbounded demoRunnableW).2 2 agent0W (by decide)⟩
